import Mathlib

/-!
Shallow embedding of the operaton-bridge Host Responder from
`packages/operaton-extension/src/index.ts` (the three-bundle variant, which
also carries `get_dmn_moddle_bundle` and `get_bpmn_js_differ_bundle`), and a
spec-modelled Worker Requester (whose source is not under `src/`).

JavaScript-specific semantics is modelled explicitly:
* a possibly-absent string field is `Option String`; `none` stands for a
  missing field as well as `undefined`/`null`;
* JS truthiness on such a value (`if (data.action)`, `if (cache)`,
  `if (key)`) is `strTruthy`: `undefined`, `null` and `""` are falsy;
* coercion of `undefined` to a string (DOMString argument positions and
  template literals) yields the string `"undefined"` (`jsString`);
* `localStorage` is an association list in insertion order; `fetch` is a
  total map from URL to an HTTP result (network-level rejection is folded
  into a non-`ok` result, which the loaders turn into a thrown error either
  way).
-/

namespace OperatonBridge

/-- Result of a `fetch` call as the bundle loaders observe it: `ok`,
`status` and `statusText` of the HTTP response, and `text` its body. -/
structure FetchResult where
  ok : Bool
  status : Nat
  statusText : String
  text : String
deriving Repr, DecidableEq

/-- The browser environment the Host Responder runs in: the page base URL
(`PageConfig.getBaseUrl()`) and the network as a map from URL to result. -/
structure Env where
  baseUrl : String
  fetch : String → FetchResult

/-- JS coercion of a possibly-undefined string value at a DOMString argument
position or in a template literal: `undefined` becomes `"undefined"`. -/
def jsString : Option String → String
  | some s => s
  | none => "undefined"

/-- JS truthiness of a possibly-undefined string value: `undefined`, `null`
and the empty string are falsy. -/
def strTruthy : Option String → Bool
  | some s => s != ""
  | none => false

/-- `localStorage.getItem`: the value of the first entry with the key. -/
def lsGetItem (s : List (String × String)) (k : String) : Option String :=
  (s.find? (fun p => p.1 == k)).map (fun p => p.2)

/-- `localStorage.setItem`: update an existing key in place, else append. -/
def lsSetItem (s : List (String × String)) (k v : String) :
    List (String × String) :=
  if s.any (fun p => p.1 == k) then
    s.map (fun p => if p.1 == k then (k, v) else p)
  else
    s ++ [(k, v)]

/-- `localStorage.removeItem`: drop every entry with the key. -/
def lsRemoveItem (s : List (String × String)) (k : String) :
    List (String × String) :=
  s.filter (fun p => p.1 != k)

/-- The keys of the store in the order `localStorage.key i` enumerates. -/
def lsKeys (s : List (String × String)) : List String :=
  s.map (fun p => p.1)

/-- Host-side mutable state: the persistent store and the three
module-level bundle cache variables. -/
structure HostState where
  store : List (String × String)
  bpmnModdleBundleCache : Option String
  dmnModdleBundleCache : Option String
  bpmnJsDifferBundleCache : Option String
deriving Repr, DecidableEq

/-- `getExtensionStaticUrl`: base URL without its trailing slash, then the
extension static path, then the file name. -/
def getExtensionStaticUrl (baseUrl : String) (filename : String) : String :=
  let base := if baseUrl.endsWith "/" then baseUrl.dropRight 1 else baseUrl
  base ++ "/extensions/@operaton/operaton-extension/static/" ++ filename

/-- Outcome of one bundle loader call: the returned bundle (or the thrown
error's message), the cache variable's value after the call, and how many
fetches the call issued. -/
structure BundleResult where
  result : Except String String
  cache : Option String
  fetches : Nat

/-- `getBpmnModdleBundle`: return the cache when it is truthy; otherwise
fetch the bundle, throw on a non-ok response, and cache the body. -/
def getBpmnModdleBundle (env : Env) (cache : Option String) : BundleResult :=
  if strTruthy cache then
    { result := .ok (jsString cache), cache := cache, fetches := 0 }
  else
    let bundleUrl := getExtensionStaticUrl env.baseUrl "bpmn-moddle.umd.js"
    let response := env.fetch bundleUrl
    if !response.ok then
      { result := .error ("Failed to fetch bpmn-moddle bundle: " ++
          toString response.status ++ " " ++ response.statusText),
        cache := cache, fetches := 1 }
    else
      { result := .ok response.text, cache := some response.text, fetches := 1 }

/-- `getDmnModdleBundle`: same shape as `getBpmnModdleBundle` for the
dmn-moddle bundle. -/
def getDmnModdleBundle (env : Env) (cache : Option String) : BundleResult :=
  if strTruthy cache then
    { result := .ok (jsString cache), cache := cache, fetches := 0 }
  else
    let bundleUrl := getExtensionStaticUrl env.baseUrl "dmn-moddle.umd.js"
    let response := env.fetch bundleUrl
    if !response.ok then
      { result := .error ("Failed to fetch dmn-moddle bundle: " ++
          toString response.status ++ " " ++ response.statusText),
        cache := cache, fetches := 1 }
    else
      { result := .ok response.text, cache := some response.text, fetches := 1 }

/-- `getBpmnJsDifferBundle`: same shape as `getBpmnModdleBundle` for the
bpmn-js-differ bundle. -/
def getBpmnJsDifferBundle (env : Env) (cache : Option String) : BundleResult :=
  if strTruthy cache then
    { result := .ok (jsString cache), cache := cache, fetches := 0 }
  else
    let bundleUrl := getExtensionStaticUrl env.baseUrl "bpmn-js-differ.umd.js"
    let response := env.fetch bundleUrl
    if !response.ok then
      { result := .error ("Failed to fetch bpmn-js-differ bundle: " ++
          toString response.status ++ " " ++ response.statusText),
        cache := cache, fetches := 1 }
    else
      { result := .ok response.text, cache := some response.text, fetches := 1 }

/-- The fields of an inbound broadcast message the responder reads. -/
structure MessageData where
  action : Option String
  request_id : Option String
  key : Option String
  value : Option String
deriving Repr, DecidableEq

/-- The response objects `handleMessage` can post, one constructor per
response object literal in the source; the constructor name is the
response's `action` tag. -/
inductive Response where
  | bpmn_moddle_bundle (request_id : Option String) (bundle : String)
  | dmn_moddle_bundle (request_id : Option String) (bundle : String)
  | bpmn_js_differ_bundle (request_id : Option String) (bundle : String)
  | localstorage_value (request_id : Option String) (key : Option String)
      (value : Option String)
  | localstorage_set (request_id : Option String) (key : Option String)
      (success : Bool)
  | localstorage_removed (request_id : Option String) (key : Option String)
      (success : Bool)
  | localstorage_keys (request_id : Option String) (keys : List String)
  | pong (request_id : Option String)
  | error (request_id : Option String) (error : String)
deriving Repr, DecidableEq

/-- The `request_id` field of a response. -/
def Response.requestId : Response → Option String
  | .bpmn_moddle_bundle rid _ => rid
  | .dmn_moddle_bundle rid _ => rid
  | .bpmn_js_differ_bundle rid _ => rid
  | .localstorage_value rid _ _ => rid
  | .localstorage_set rid _ _ => rid
  | .localstorage_removed rid _ _ => rid
  | .localstorage_keys rid _ => rid
  | .pong rid => rid
  | .error rid _ => rid

/-- Whether a response is the generic error response. -/
def Response.isError : Response → Bool
  | .error _ _ => true
  | _ => false

/-- The `action` values the dispatch switch recognizes. -/
def recognizedActions : List String :=
  ["get_bpmn_moddle_bundle", "get_dmn_moddle_bundle",
   "get_bpmn_js_differ_bundle", "get_localstorage", "set_localstorage",
   "remove_localstorage", "get_localstorage_keys", "ping"]

/-- The key-collection loop of `get_localstorage_keys`:
`if (key) keys.push(key)` pushes only truthy (non-empty) keys. -/
def collectTruthyKeys : List String → List String
  | [] => []
  | k :: rest =>
      if k = "" then collectTruthyKeys rest else k :: collectTruthyKeys rest

/-- `handleMessage`: dispatch on `action` and produce exactly one response;
a throw inside the `try` block (only the bundle loaders throw, before any
state assignment) is caught and turned into the generic error response.
Returns the host state after the call, the response posted, and the number
of fetches issued while handling. -/
def handleMessage (env : Env) (st : HostState) (data : MessageData) :
    HostState × Response × Nat :=
  let requestId := data.request_id
  if data.action = some "get_bpmn_moddle_bundle" then
    let r := getBpmnModdleBundle env st.bpmnModdleBundleCache
    match r.result with
    | .ok bundle =>
        ({ st with bpmnModdleBundleCache := r.cache },
         .bpmn_moddle_bundle requestId bundle, r.fetches)
    | .error msg => (st, .error requestId msg, r.fetches)
  else if data.action = some "get_dmn_moddle_bundle" then
    let r := getDmnModdleBundle env st.dmnModdleBundleCache
    match r.result with
    | .ok bundle =>
        ({ st with dmnModdleBundleCache := r.cache },
         .dmn_moddle_bundle requestId bundle, r.fetches)
    | .error msg => (st, .error requestId msg, r.fetches)
  else if data.action = some "get_bpmn_js_differ_bundle" then
    let r := getBpmnJsDifferBundle env st.bpmnJsDifferBundleCache
    match r.result with
    | .ok bundle =>
        ({ st with bpmnJsDifferBundleCache := r.cache },
         .bpmn_js_differ_bundle requestId bundle, r.fetches)
    | .error msg => (st, .error requestId msg, r.fetches)
  else if data.action = some "get_localstorage" then
    let key := data.key
    let value := lsGetItem st.store (jsString key)
    (st, .localstorage_value requestId key value, 0)
  else if data.action = some "set_localstorage" then
    let key := data.key
    let value := data.value
    ({ st with store := lsSetItem st.store (jsString key) (jsString value) },
     .localstorage_set requestId key true, 0)
  else if data.action = some "remove_localstorage" then
    let key := data.key
    ({ st with store := lsRemoveItem st.store (jsString key) },
     .localstorage_removed requestId key true, 0)
  else if data.action = some "get_localstorage_keys" then
    (st, .localstorage_keys requestId (collectTruthyKeys (lsKeys st.store)), 0)
  else if data.action = some "ping" then
    (st, .pong requestId, 0)
  else
    (st, .error requestId ("Unknown action: " ++ jsString data.action), 0)

/-- The `channel.onmessage` gate: dispatch only when `data && data.action`
is truthy, otherwise ignore silently. `none` models a null or non-object
event payload. Returns the list of responses posted (empty or a
singleton) alongside the state and fetch count. -/
def onmessage (env : Env) (st : HostState) (data : Option MessageData) :
    HostState × List Response × Nat :=
  match data with
  | none => (st, [], 0)
  | some d =>
      if strTruthy d.action then
        let r := handleMessage env st d
        (r.1, [r.2.1], r.2.2)
      else
        (st, [], 0)

/-- The three named assets a host-side bundle cache variable exists for. -/
inductive BundleName where
  | bpmn
  | dmn
  | differ
deriving Repr, DecidableEq

/-- The request `action` that asks for a given bundle. -/
def bundleAction : BundleName → String
  | .bpmn => "get_bpmn_moddle_bundle"
  | .dmn => "get_dmn_moddle_bundle"
  | .differ => "get_bpmn_js_differ_bundle"

/-- The static asset file name a given bundle is fetched from. -/
def bundleFile : BundleName → String
  | .bpmn => "bpmn-moddle.umd.js"
  | .dmn => "dmn-moddle.umd.js"
  | .differ => "bpmn-js-differ.umd.js"

/-- The cache variable for a given bundle. -/
def cacheOf (st : HostState) : BundleName → Option String
  | .bpmn => st.bpmnModdleBundleCache
  | .dmn => st.dmnModdleBundleCache
  | .differ => st.bpmnJsDifferBundleCache

/-- The host state with one bundle's cache variable overwritten. -/
def setCache (st : HostState) : BundleName → Option String → HostState
  | .bpmn, c => { st with bpmnModdleBundleCache := c }
  | .dmn, c => { st with dmnModdleBundleCache := c }
  | .differ, c => { st with bpmnJsDifferBundleCache := c }

/-- The message of the error each bundle loader throws on a non-ok fetch. -/
def bundleFailMsg : BundleName → FetchResult → String
  | .bpmn, r => "Failed to fetch bpmn-moddle bundle: " ++
      toString r.status ++ " " ++ r.statusText
  | .dmn, r => "Failed to fetch dmn-moddle bundle: " ++
      toString r.status ++ " " ++ r.statusText
  | .differ, r => "Failed to fetch bpmn-js-differ bundle: " ++
      toString r.status ++ " " ++ r.statusText

/-- The success response for a given bundle. -/
def bundleResponse : BundleName → Option String → String → Response
  | .bpmn, rid, b => .bpmn_moddle_bundle rid b
  | .dmn, rid, b => .dmn_moddle_bundle rid b
  | .differ, rid, b => .bpmn_js_differ_bundle rid b

/-!
Worker Requester model.

Modelled from the spec: the Worker Requester's source is not under `src/`
(only the Host Responder is); §4.2 and §5 of the spec describe it. Each
call registers a pending-completion entry in the correlation table under a
fresh correlation id together with a deadline; a response whose
`request_id` matches a pending entry resolves (or, for the generic error
response, rejects) that call and removes the entry; when the deadline
passes with no matching response the call fails with a timeout error and
the entry is released. Time is abstracted into discrete ticks.
-/

/-- Modelled from the spec: how a pending requester call completes. -/
inductive CallOutcome where
  | resolved (resp : Response)
  | rejected (msg : String)
  | timedOut
deriving Repr, DecidableEq

/-- Modelled from the spec: a requester instance's state — its clock, its
correlation table mapping each outstanding `request_id` to that call's
deadline, and the outcomes of completed calls. -/
structure RequesterState where
  now : Nat
  pending : List (String × Nat)
  completed : List (String × CallOutcome)
deriving Repr, DecidableEq

/-- Modelled from the spec: issuing a request registers a pending entry
whose deadline is the current time plus the configured timeout. -/
def sendRequest (st : RequesterState) (rid : String) (timeoutTicks : Nat) :
    RequesterState :=
  { st with pending := (rid, st.now + timeoutTicks) :: st.pending }

/-- Modelled from the spec: what can happen to a requester while a call is
outstanding — a response arrives on the channel, or time advances. -/
inductive RequesterEvent where
  | recv (resp : Response)
  | tick

/-- Modelled from the spec: one requester step. A response matching a
pending entry removes the entry and records the outcome (rejection with
the carried message for the generic error response, resolution otherwise);
non-matching responses are ignored. A tick advances the clock and fails
every entry whose deadline has passed with a timeout, releasing it. -/
def requesterStep (st : RequesterState) (e : RequesterEvent) :
    RequesterState :=
  match e with
  | .recv resp =>
      match resp.requestId with
      | none => st
      | some rid =>
          if st.pending.any (fun p => p.1 == rid) then
            { st with
              pending := st.pending.filter (fun p => p.1 != rid),
              completed :=
                (rid,
                  match resp with
                  | .error _ msg => CallOutcome.rejected msg
                  | r => CallOutcome.resolved r) :: st.completed }
          else
            st
  | .tick =>
      let now := st.now + 1
      { now := now,
        pending := st.pending.filter (fun p => now < p.2),
        completed :=
          (st.pending.filter (fun p => p.2 ≤ now)).map
            (fun p => (p.1, CallOutcome.timedOut)) ++ st.completed }

/-- Modelled from the spec: a requester run over a sequence of events. -/
def requesterRun (st : RequesterState) (events : List RequesterEvent) :
    RequesterState :=
  events.foldl requesterStep st

/-- Whether an event is the arrival of a response correlated to `rid`. -/
def matchesId (rid : String) : RequesterEvent → Bool
  | .recv resp => resp.requestId == some rid
  | .tick => false

/-- The pending entries registered under a given correlation id. -/
def pendingFor (st : RequesterState) (rid : String) : List (String × Nat) :=
  st.pending.filter (fun p => p.1 == rid)

/-! Fixtures for witnesses and counterexamples. -/

/-- A fresh requester. -/
def initRequester : RequesterState :=
  { now := 0, pending := [], completed := [] }

/-- The host state at activation: empty store, all caches null. -/
def initState : HostState :=
  { store := [], bpmnModdleBundleCache := none, dmnModdleBundleCache := none,
    bpmnJsDifferBundleCache := none }

/-- An environment whose every fetch succeeds with body `"BUNDLE"`. -/
def sampleEnv : Env :=
  { baseUrl := "http://localhost:8888/",
    fetch := fun _ => { ok := true, status := 200, statusText := "OK",
                        text := "BUNDLE" } }

/-- An environment whose every fetch fails with 404. -/
def failEnv : Env :=
  { baseUrl := "http://localhost:8888/",
    fetch := fun _ => { ok := false, status := 404,
                        statusText := "Not Found", text := "" } }

/-- An environment whose every fetch succeeds with an empty body. -/
def emptyBodyEnv : Env :=
  { baseUrl := "http://localhost:8888/",
    fetch := fun _ => { ok := true, status := 200, statusText := "OK",
                        text := "" } }

/-- A message whose `action` field is present but holds the empty string. -/
def msgEmptyAction : MessageData :=
  { action := some "", request_id := some "r0", key := none, value := none }

/-- A liveness-check request. -/
def msgPing : MessageData :=
  { action := some "ping", request_id := some "r", key := none, value := none }

/-- A request with an unrecognized action name. -/
def msgZap : MessageData :=
  { action := some "zap", request_id := some "r", key := none, value := none }

/-- A request for the bpmn-moddle bundle. -/
def msgGetBpmn (rid : String) : MessageData :=
  { action := some "get_bpmn_moddle_bundle", request_id := some rid,
    key := none, value := none }

/-- A `set_localstorage` request. -/
def msgSet (rid k v : String) : MessageData :=
  { action := some "set_localstorage", request_id := some rid,
    key := some k, value := some v }

/-- A `get_localstorage` request. -/
def msgGet (rid k : String) : MessageData :=
  { action := some "get_localstorage", request_id := some rid,
    key := some k, value := none }

/-- A `remove_localstorage` request. -/
def msgRemove (rid k : String) : MessageData :=
  { action := some "remove_localstorage", request_id := some rid,
    key := some k, value := none }

/-- A `get_localstorage_keys` request. -/
def msgKeys (rid : String) : MessageData :=
  { action := some "get_localstorage_keys", request_id := some rid,
    key := none, value := none }

/-- A host state with two stored keys, for witnesses. -/
def stAB : HostState :=
  { store := [("a", "1"), ("b", "2")], bpmnModdleBundleCache := none,
    dmnModdleBundleCache := none, bpmnJsDifferBundleCache := none }

/-- A host state whose bpmn cache is already populated, for witnesses. -/
def stCached : HostState :=
  { store := [], bpmnModdleBundleCache := some "B",
    dmnModdleBundleCache := none, bpmnJsDifferBundleCache := none }

/-! Theorems. -/

/-- Every response `handleMessage` builds echoes the request's `request_id`. -/
theorem handleMessage_requestId (env : Env) (st : HostState) (d : MessageData) :
    ((handleMessage env st d).2.1).requestId = d.request_id := by
  unfold handleMessage
  repeat' split
  all_goals (dsimp only; repeat' split) <;> rfl

/-- Claim C1 is false as stated: this message carries an `action` field (the
empty string), yet the truthiness gate `if (data && data.action)` drops it
and the Host Responder broadcasts no response at all. -/
theorem claim_C1_cex :
    msgEmptyAction.action.isSome = true ∧
    (onmessage sampleEnv initState (some msgEmptyAction)).2.1 = [] := by
  decide

/-- Claim C1 (amended: the `action` field must hold a non-empty string,
which is what the JS truthiness gate actually tests): for every inbound
broadcast message whose `action` field is a non-empty string, the Host
Responder broadcasts exactly one response, and that response's
`request_id` equals the request's `request_id` byte-for-byte — across
success responses, unknown-action errors and handler-failure errors alike,
since `handleMessage` builds exactly one response on every path. -/
theorem claim_C1 (env : Env) (st : HostState) (d : MessageData) (a : String)
    (ha : d.action = some a) (hne : a ≠ "") :
    ∃ r : Response, (onmessage env st (some d)).2.1 = [r] ∧
      r.requestId = d.request_id := by
  refine ⟨(handleMessage env st d).2.1, ?_, handleMessage_requestId env st d⟩
  unfold onmessage
  dsimp only
  rw [ha]
  simp [strTruthy, hne]

/-- Witness for C1 at the concrete liveness-check request. -/
theorem claim_C1_witness :
    ∃ r : Response, (onmessage sampleEnv initState (some msgPing)).2.1 = [r] ∧
      r.requestId = msgPing.request_id :=
  claim_C1 sampleEnv initState msgPing "ping" rfl (by decide)

/-- Claim C3 is false as stated: the empty string is not a recognized
operation name, yet a request carrying it as `action` is dropped by the
truthiness gate and receives no response — not even an error response. -/
theorem claim_C3_cex :
    msgEmptyAction.action = some "" ∧ "" ∉ recognizedActions ∧
    (onmessage sampleEnv initState (some msgEmptyAction)).2.1 = [] := by
  decide

/-- Claim C3 (amended: restricted to non-empty action values, since the
truthiness gate drops an empty-string action before dispatch): for every
request whose `action` is a non-empty string outside the recognized set,
the Host Responder responds with exactly the generic error response, whose
error message names the unrecognized action. -/
theorem claim_C3 (env : Env) (st : HostState) (d : MessageData) (a : String)
    (ha : d.action = some a) (hne : a ≠ "") (hur : a ∉ recognizedActions) :
    (onmessage env st (some d)).2.1 =
      [Response.error d.request_id ("Unknown action: " ++ a)] := by
  simp only [recognizedActions, List.mem_cons, List.not_mem_nil, or_false,
    not_or] at hur
  obtain ⟨h1, h2, h3, h4, h5, h6, h7, h8⟩ := hur
  unfold onmessage handleMessage
  dsimp only
  rw [ha]
  simp [strTruthy, hne, h1, h2, h3, h4, h5, h6, h7, h8, jsString]

/-- Witness for C3 at the concrete unrecognized action `"zap"`. -/
theorem claim_C3_witness :
    (onmessage sampleEnv initState (some msgZap)).2.1 =
      [Response.error msgZap.request_id ("Unknown action: " ++ "zap")] :=
  claim_C3 sampleEnv initState msgZap "zap" rfl (by decide) (by decide)

/-- Claim C5: a received broadcast that is null/non-object or lacks an
`action` field produces no response, raises no error, leaves all host
state unchanged and issues no fetch. -/
theorem claim_C5 (env : Env) (st : HostState) (data : Option MessageData)
    (h : data = none ∨ ∃ d, data = some d ∧ d.action = none) :
    onmessage env st data = (st, [], 0) := by
  rcases h with rfl | ⟨d, rfl, hd⟩
  · rfl
  · unfold onmessage
    dsimp only
    rw [hd]
    rfl

/-- Witness for C5 at a null message payload. -/
theorem claim_C5_witness :
    onmessage sampleEnv initState none = (initState, [], 0) :=
  claim_C5 sampleEnv initState none (Or.inl rfl)

/-- A truthy bpmn-moddle cache is returned as-is with no fetch. -/
theorem getBpmnModdleBundle_cached (env : Env) (b : String) (hb : b ≠ "") :
    getBpmnModdleBundle env (some b) =
      { result := .ok b, cache := some b, fetches := 0 } := by
  unfold getBpmnModdleBundle
  simp [strTruthy, hb, jsString]

/-- A truthy dmn-moddle cache is returned as-is with no fetch. -/
theorem getDmnModdleBundle_cached (env : Env) (b : String) (hb : b ≠ "") :
    getDmnModdleBundle env (some b) =
      { result := .ok b, cache := some b, fetches := 0 } := by
  unfold getDmnModdleBundle
  simp [strTruthy, hb, jsString]

/-- A truthy bpmn-js-differ cache is returned as-is with no fetch. -/
theorem getBpmnJsDifferBundle_cached (env : Env) (b : String) (hb : b ≠ "") :
    getBpmnJsDifferBundle env (some b) =
      { result := .ok b, cache := some b, fetches := 0 } := by
  unfold getBpmnJsDifferBundle
  simp [strTruthy, hb, jsString]

/-- Claim C2 is false as stated: when the first successful fetch of an
asset returns an empty body, the cache holds `""`, which the truthiness
test `if (bpmnModdleBundleCache)` treats as unpopulated, so a second
request for the same asset issues a second underlying fetch — two fetches
for one asset name in one process lifetime, refuting "at most one fetch is
ever issued per asset name". -/
theorem claim_C2_cex :
    (handleMessage emptyBodyEnv initState (msgGetBpmn "a")).2.2
      + (handleMessage emptyBodyEnv
          (handleMessage emptyBodyEnv initState (msgGetBpmn "a")).1
          (msgGetBpmn "b")).2.2 = 2 := by
  decide

/-- Claim C2 (amended: memoization holds provided the fetched content is
non-empty): for each of the three asset names, starting from an empty
cache, if fetching that asset succeeds with a non-empty body, then the
first request issues exactly one fetch and populates that asset's cache
permanently with the body, and a second request for the same asset issues
no further fetch and resolves to the identical content. -/
theorem claim_C2 (env : Env) (st : HostState) (bn : BundleName)
    (r1 r2 : Option String)
    (hc : cacheOf st bn = none)
    (hok : (env.fetch (getExtensionStaticUrl env.baseUrl
        (bundleFile bn))).ok = true)
    (hne : (env.fetch (getExtensionStaticUrl env.baseUrl
        (bundleFile bn))).text ≠ "") :
    ∃ b : String,
      handleMessage env st
        { action := some (bundleAction bn), request_id := r1,
          key := none, value := none }
        = (setCache st bn (some b), bundleResponse bn r1 b, 1)
      ∧ handleMessage env (setCache st bn (some b))
        { action := some (bundleAction bn), request_id := r2,
          key := none, value := none }
        = (setCache st bn (some b), bundleResponse bn r2 b, 0) := by
  refine ⟨(env.fetch (getExtensionStaticUrl env.baseUrl
    (bundleFile bn))).text, ?_, ?_⟩
  · cases bn <;>
      simp only [cacheOf] at hc <;>
      simp only [bundleFile] at hok <;>
      (unfold handleMessage; dsimp only) <;>
      simp [bundleAction, bundleFile, setCache, bundleResponse, strTruthy,
        hok, getBpmnModdleBundle, getDmnModdleBundle, getBpmnJsDifferBundle,
        hc]
  · cases bn <;>
      simp only [bundleFile] at hne <;>
      (unfold handleMessage; dsimp only) <;>
      simp [bundleAction, bundleFile, setCache, bundleResponse,
        getBpmnModdleBundle_cached _ _ hne,
        getDmnModdleBundle_cached _ _ hne,
        getBpmnJsDifferBundle_cached _ _ hne]

/-- Witness for C2 in the all-succeed environment, at the bpmn asset. -/
theorem claim_C2_witness :
    ∃ b : String,
      handleMessage sampleEnv initState
        { action := some (bundleAction BundleName.bpmn),
          request_id := some "a", key := none, value := none }
        = (setCache initState BundleName.bpmn (some b),
           bundleResponse BundleName.bpmn (some "a") b, 1)
      ∧ handleMessage sampleEnv (setCache initState BundleName.bpmn (some b))
        { action := some (bundleAction BundleName.bpmn),
          request_id := some "b", key := none, value := none }
        = (setCache initState BundleName.bpmn (some b),
           bundleResponse BundleName.bpmn (some "b") b, 0) :=
  claim_C2 sampleEnv initState BundleName.bpmn (some "a") (some "b") rfl rfl
    (by decide)

/-- Claim C4: every failure raised by a recognized bundle handler (a
non-ok fetch of any of the three assets, attempted because that bundle's
cache is not truthy) is caught and converted into the generic error
response carrying the failure's message, with host state unchanged — the
responder still posts exactly one (error) response instead of letting the
exception escape or yielding a silent empty result. -/
theorem claim_C4 (env : Env) (st : HostState) (d : MessageData)
    (bn : BundleName) (ha : d.action = some (bundleAction bn))
    (hc : strTruthy (cacheOf st bn) = false)
    (hfail : (env.fetch (getExtensionStaticUrl env.baseUrl
        (bundleFile bn))).ok = false) :
    handleMessage env st d =
      (st, .error d.request_id
        (bundleFailMsg bn (env.fetch (getExtensionStaticUrl env.baseUrl
          (bundleFile bn)))), 1) := by
  cases bn <;>
    simp only [bundleAction] at ha <;>
    simp only [cacheOf] at hc <;>
    simp only [bundleFile] at hfail <;>
    (unfold handleMessage; dsimp only) <;>
    simp [ha, hc, hfail, bundleFailMsg, bundleFile, getBpmnModdleBundle,
      getDmnModdleBundle, getBpmnJsDifferBundle]

/-- Witness for C4 at a concrete 404 environment. -/
theorem claim_C4_witness :
    handleMessage failEnv initState (msgGetBpmn "r") =
      (initState, .error (msgGetBpmn "r").request_id
        (bundleFailMsg BundleName.bpmn
          (failEnv.fetch (getExtensionStaticUrl failEnv.baseUrl
            (bundleFile BundleName.bpmn)))), 1) :=
  claim_C4 failEnv initState (msgGetBpmn "r") BundleName.bpmn rfl rfl rfl

/-- Claim C10: once a bundle cache variable holds a non-empty string,
handling any message leaves that cache unchanged, and every request for
that bundle resolves to exactly the cached string with zero fetches
issued. -/
theorem claim_C10 (env : Env) (st : HostState) (d : MessageData)
    (bn : BundleName) (b : String)
    (hc : cacheOf st bn = some b) (hb : b ≠ "") :
    cacheOf (handleMessage env st d).1 bn = some b
    ∧ (d.action = some (bundleAction bn) →
        handleMessage env st d = (st, bundleResponse bn d.request_id b, 0)) := by
  constructor
  · cases bn <;>
      simp only [cacheOf] at hc ⊢ <;>
      (unfold handleMessage; dsimp only) <;>
      (repeat' split) <;>
      simp_all [getBpmnModdleBundle_cached, getDmnModdleBundle_cached,
        getBpmnJsDifferBundle_cached]
  · intro ha
    cases bn
    case bpmn =>
      simp only [cacheOf] at hc
      simp only [bundleAction] at ha
      unfold handleMessage
      dsimp only
      rw [ha, hc, getBpmnModdleBundle_cached env b hb]
      rw [← hc]
      simp [bundleResponse]
    case dmn =>
      simp only [cacheOf] at hc
      simp only [bundleAction] at ha
      unfold handleMessage
      dsimp only
      rw [ha, hc, getDmnModdleBundle_cached env b hb]
      rw [← hc]
      simp [bundleResponse]
    case differ =>
      simp only [cacheOf] at hc
      simp only [bundleAction] at ha
      unfold handleMessage
      dsimp only
      rw [ha, hc, getBpmnJsDifferBundle_cached env b hb]
      rw [← hc]
      simp [bundleResponse]

/-- Witness for C10 at a host state whose bpmn cache holds `"B"`. -/
theorem claim_C10_witness :
    cacheOf (handleMessage sampleEnv stCached (msgGetBpmn "r")).1
        BundleName.bpmn = some "B"
    ∧ ((msgGetBpmn "r").action = some (bundleAction BundleName.bpmn) →
        handleMessage sampleEnv stCached (msgGetBpmn "r") =
          (stCached, bundleResponse BundleName.bpmn
            (msgGetBpmn "r").request_id "B", 0)) :=
  claim_C10 sampleEnv stCached (msgGetBpmn "r") BundleName.bpmn "B" rfl
    (by decide)

theorem lsGetItem_cons (p : String × String) (l : List (String × String))
    (k : String) :
    lsGetItem (p :: l) k = if p.1 == k then some p.2 else lsGetItem l k := by
  by_cases hp : (p.1 == k) = true
  · simp [lsGetItem, List.find?_cons_of_pos, hp]
  · simp only [Bool.not_eq_true] at hp
    simp [lsGetItem, List.find?_cons_of_neg, hp]

theorem lsGetItem_update (s : List (String × String)) (k v : String)
    (h : s.any (fun p => p.1 == k) = true) :
    lsGetItem (s.map (fun p => if p.1 == k then (k, v) else p)) k = some v := by
  induction s with
  | nil => simp at h
  | cons p rest ih =>
      rw [List.map_cons, lsGetItem_cons]
      by_cases hp : p.1 = k
      · simp [hp]
      · have hp' : (p.1 == k) = false := beq_eq_false_iff_ne.mpr hp
        simp only [List.any_cons, hp', Bool.false_or] at h
        simp only [hp', Bool.false_eq_true, if_false]
        exact ih h

theorem lsGetItem_eq_none_of_any_false (s : List (String × String))
    (k : String) (h : s.any (fun p => p.1 == k) = false) :
    lsGetItem s k = none := by
  induction s with
  | nil => rfl
  | cons p rest ih =>
      simp only [List.any_cons, Bool.or_eq_false_iff] at h
      rw [lsGetItem_cons]
      simp [h.1, ih h.2]

theorem lsGetItem_append_of_none (s : List (String × String)) (k v : String)
    (h : lsGetItem s k = none) :
    lsGetItem (s ++ [(k, v)]) k = some v := by
  induction s with
  | nil => simp [lsGetItem]
  | cons p rest ih =>
      rw [lsGetItem_cons] at h
      rw [List.cons_append, lsGetItem_cons]
      by_cases hp : (p.1 == k) = true
      · simp [hp] at h
      · simp only [Bool.not_eq_true] at hp
        simp only [hp, Bool.false_eq_true, if_false] at h ⊢
        exact ih h

theorem lsGetItem_lsSetItem_self (s : List (String × String)) (k v : String) :
    lsGetItem (lsSetItem s k v) k = some v := by
  unfold lsSetItem
  split
  case isTrue h => exact lsGetItem_update s k v h
  case isFalse h =>
      simp only [Bool.not_eq_true] at h
      exact lsGetItem_append_of_none s k v
        (lsGetItem_eq_none_of_any_false s k h)

theorem lsGetItem_update_ne (s : List (String × String)) (k v j : String)
    (h : j ≠ k) :
    lsGetItem (s.map (fun p => if p.1 == k then (k, v) else p)) j =
      lsGetItem s j := by
  have hkj : (k == j) = false := beq_eq_false_iff_ne.mpr (Ne.symm h)
  induction s with
  | nil => rfl
  | cons p rest ih =>
      rw [List.map_cons, lsGetItem_cons, lsGetItem_cons]
      by_cases hp : p.1 = k
      · have hpj : (p.1 == j) = false := by rw [hp]; exact hkj
        have hhead : (if (p.1 == k) = true then (k, v) else p) = (k, v) := by
          simp [hp]
        rw [hhead]
        dsimp only
        simp only [hkj, hpj, Bool.false_eq_true, if_false]
        exact ih
      · have hp' : (p.1 == k) = false := beq_eq_false_iff_ne.mpr hp
        simp only [hp', Bool.false_eq_true, if_false]
        rw [ih]

theorem lsGetItem_append_ne (s : List (String × String)) (k v j : String)
    (h : j ≠ k) :
    lsGetItem (s ++ [(k, v)]) j = lsGetItem s j := by
  have hkj : (k == j) = false := beq_eq_false_iff_ne.mpr (Ne.symm h)
  induction s with
  | nil => simp [lsGetItem, hkj]
  | cons p rest ih =>
      rw [List.cons_append, lsGetItem_cons, lsGetItem_cons, ih]

theorem lsGetItem_lsSetItem_ne (s : List (String × String)) (k v j : String)
    (h : j ≠ k) :
    lsGetItem (lsSetItem s k v) j = lsGetItem s j := by
  unfold lsSetItem
  split
  · exact lsGetItem_update_ne s k v j h
  · exact lsGetItem_append_ne s k v j h

theorem lsGetItem_lsRemoveItem_self (s : List (String × String)) (k : String) :
    lsGetItem (lsRemoveItem s k) k = none := by
  induction s with
  | nil => rfl
  | cons p rest ih =>
      unfold lsRemoveItem at ih ⊢
      rw [List.filter_cons]
      by_cases hp : p.1 = k
      · simp [hp, ih]
      · have h1 : (p.1 != k) = true := by simp [hp]
        have h2 : (p.1 == k) = false := beq_eq_false_iff_ne.mpr hp
        simp only [h1, if_true]
        rw [lsGetItem_cons]
        simp [h2, ih]

theorem lsGetItem_lsRemoveItem_ne (s : List (String × String)) (k j : String)
    (h : j ≠ k) :
    lsGetItem (lsRemoveItem s k) j = lsGetItem s j := by
  induction s with
  | nil => rfl
  | cons p rest ih =>
      unfold lsRemoveItem at ih ⊢
      rw [List.filter_cons]
      by_cases hp : p.1 = k
      · have h1 : (p.1 == j) = false := by
          rw [hp]; exact beq_eq_false_iff_ne.mpr (Ne.symm h)
        have h2 : (p.1 != k) = false := by simp [hp]
        simp only [h2, Bool.false_eq_true, if_false]
        rw [ih, lsGetItem_cons]
        simp [h1]
      · have h2 : (p.1 != k) = true := by simp [hp]
        simp only [h2, if_true]
        rw [lsGetItem_cons, lsGetItem_cons, ih]

theorem mem_collectTruthyKeys (l : List String) (k : String) :
    k ∈ collectTruthyKeys l ↔ (k ∈ l ∧ k ≠ "") := by
  induction l with
  | nil => simp [collectTruthyKeys]
  | cons x rest ih =>
      unfold collectTruthyKeys
      by_cases hx : x = ""
      · subst hx
        simp only [if_true]
        rw [ih]
        constructor
        · rintro ⟨hm, hne⟩
          exact ⟨List.mem_cons_of_mem _ hm, hne⟩
        · rintro ⟨hm, hne⟩
          rcases List.mem_cons.mp hm with rfl | hm
          · exact absurd rfl hne
          · exact ⟨hm, hne⟩
      · simp only [hx, if_false, List.mem_cons, ih]
        constructor
        · rintro (rfl | ⟨hm, hne⟩)
          · exact ⟨Or.inl rfl, hx⟩
          · exact ⟨Or.inr hm, hne⟩
        · rintro ⟨rfl | hm, hne⟩
          · exact Or.inl rfl
          · exact Or.inr ⟨hm, hne⟩

theorem lsGetItem_ne_none_iff (s : List (String × String)) (k : String) :
    lsGetItem s k ≠ none ↔ k ∈ lsKeys s := by
  induction s with
  | nil => simp [lsGetItem, lsKeys]
  | cons p rest ih =>
      rw [lsGetItem_cons]
      show _ ↔ k ∈ p.1 :: lsKeys rest
      by_cases hp : p.1 = k
      · simp [hp]
      · have h1 : (p.1 == k) = false := beq_eq_false_iff_ne.mpr hp
        have h2 : ¬k = p.1 := fun hh => hp hh.symm
        simp [h1, ih, List.mem_cons, h2]

/-- Claim C6: store roundtrip — handling write-stored-value(k, v) and then
read-stored-value(k) responds with value v, and handling
delete-stored-value(k) and then read-stored-value(k) responds with
null. -/
theorem claim_C6 (env : Env) (st : HostState) (k v : String)
    (r1 r2 : Option String) :
    (handleMessage env
        (handleMessage env st
          { action := some "set_localstorage", request_id := r1,
            key := some k, value := some v }).1
        { action := some "get_localstorage", request_id := r2,
          key := some k, value := none }).2.1
      = .localstorage_value r2 (some k) (some v)
    ∧ (handleMessage env
        (handleMessage env st
          { action := some "remove_localstorage", request_id := r1,
            key := some k, value := none }).1
        { action := some "get_localstorage", request_id := r2,
          key := some k, value := none }).2.1
      = .localstorage_value r2 (some k) none := by
  constructor
  · unfold handleMessage
    dsimp only
    simp [jsString, lsGetItem_lsSetItem_self]
  · unfold handleMessage
    dsimp only
    simp [jsString, lsGetItem_lsRemoveItem_self]

/-- Claim C7 is false as stated: the empty-string key can be written (and
is then a currently stored key), but the `if (key)` truthiness test in the
`get_localstorage_keys` loop skips it, so it never appears in the
returned key sequence. -/
theorem claim_C7_cex :
    lsGetItem ((handleMessage sampleEnv initState
        (msgSet "r1" "" "v")).1).store "" = some "v"
    ∧ (handleMessage sampleEnv
        (handleMessage sampleEnv initState (msgSet "r1" "" "v")).1
        (msgKeys "r2")).2.1 = .localstorage_keys (some "r2") [] := by
  decide

/-- Claim C7 (amended: restricted to non-empty keys, which is what the
`if (key)` push condition keeps): list-stored-keys responds with a
sequence containing exactly the currently stored non-empty keys — every
non-empty key present in the store appears, and no absent or empty key
appears. -/
theorem claim_C7 (env : Env) (st : HostState) (d : MessageData)
    (ha : d.action = some "get_localstorage_keys") :
    ∃ ks, (handleMessage env st d).2.1
        = .localstorage_keys d.request_id ks
      ∧ ∀ k, k ∈ ks ↔ (k ≠ "" ∧ lsGetItem st.store k ≠ none) := by
  refine ⟨collectTruthyKeys (lsKeys st.store), ?_, ?_⟩
  · unfold handleMessage
    dsimp only
    simp [ha]
  · intro k
    rw [mem_collectTruthyKeys, lsGetItem_ne_none_iff]
    tauto

/-- Witness for C7 at a concrete two-key store. -/
theorem claim_C7_witness :
    ∃ ks, (handleMessage sampleEnv stAB (msgKeys "r")).2.1
        = .localstorage_keys (msgKeys "r").request_id ks
      ∧ ∀ k, k ∈ ks ↔ (k ≠ "" ∧ lsGetItem stAB.store k ≠ none) :=
  claim_C7 sampleEnv stAB (msgKeys "r") rfl

/-- Claim C9: frame property of the dispatcher — handling
write-stored-value(k)/delete-stored-value(k) leaves the stored value of
every other key j unchanged, and handling read-stored-value,
list-stored-keys, liveness-check or an unrecognized action leaves the
entire persistent store unchanged. -/
theorem claim_C9 (env : Env) (st : HostState) (d : MessageData)
    (k j : String) :
    ((d.action = some "set_localstorage" ∨
        d.action = some "remove_localstorage") →
      d.key = some k → j ≠ k →
      lsGetItem (handleMessage env st d).1.store j = lsGetItem st.store j)
    ∧ ((d.action = some "get_localstorage" ∨
        d.action = some "get_localstorage_keys" ∨
        d.action = some "ping" ∨
        (∃ a, d.action = some a ∧ a ∉ recognizedActions)) →
      (handleMessage env st d).1.store = st.store) := by
  constructor
  · rintro (ha | ha) hk hj
    · unfold handleMessage
      dsimp only
      rw [ha, hk]
      simp [jsString, lsGetItem_lsSetItem_ne _ _ _ _ hj]
    · unfold handleMessage
      dsimp only
      rw [ha, hk]
      simp [jsString, lsGetItem_lsRemoveItem_ne _ _ _ hj]
  · rintro (ha | ha | ha | ⟨a, ha, hur⟩)
    · unfold handleMessage
      dsimp only
      rw [ha]
      simp
    · unfold handleMessage
      dsimp only
      rw [ha]
      simp
    · unfold handleMessage
      dsimp only
      rw [ha]
      simp
    · simp only [recognizedActions, List.mem_cons, List.not_mem_nil,
        or_false, not_or] at hur
      obtain ⟨h1, h2, h3, h4, h5, h6, h7, h8⟩ := hur
      unfold handleMessage
      dsimp only
      rw [ha]
      simp [h1, h2, h3, h4, h5, h6, h7, h8]

/-- Witness for C9 at a concrete two-key store. -/
theorem claim_C9_witness :
    lsGetItem (handleMessage sampleEnv stAB (msgSet "r" "k" "v")).1.store "b"
      = lsGetItem stAB.store "b"
    ∧ (handleMessage sampleEnv stAB msgPing).1.store = stAB.store :=
  ⟨(claim_C9 sampleEnv stAB (msgSet "r" "k" "v") "k" "b").1 (Or.inl rfl) rfl
      (by decide),
   (claim_C9 sampleEnv stAB msgPing "k" "b").2 (Or.inr (Or.inr (Or.inl rfl)))⟩

/-- Two filters over the same list commute. -/
theorem filter_swap {α : Type} (p q : α → Bool) (l : List α) :
    (l.filter p).filter q = (l.filter q).filter p := by
  induction l with
  | nil => rfl
  | cons x xs ih =>
      by_cases hp : p x = true <;> by_cases hq : q x = true <;>
        simp [List.filter_cons, hp, hq, ih]

/-- Removing another id's entries does not change the entries for `rid`. -/
theorem pendingFor_filter_ne (l : List (String × Nat)) (rid rid' : String)
    (h : rid' ≠ rid) :
    (l.filter (fun p => p.1 != rid')).filter (fun p => p.1 == rid)
      = l.filter (fun p => p.1 == rid) := by
  induction l with
  | nil => rfl
  | cons x xs ih =>
      by_cases hx : x.1 = rid'
      · have h1 : (x.1 != rid') = false := by simp [hx]
        have h2 : (x.1 == rid) = false := by simp [hx, h]
        simp [List.filter_cons, h1, h2, ih]
      · have h1 : (x.1 != rid') = true := by simp [hx]
        rw [List.filter_cons, if_pos h1, List.filter_cons, List.filter_cons,
          ih]

/-- One requester step preserves the pending-or-timed-out invariant for a
call with deadline `D` and no matching response. -/
theorem requester_inv_step (rid : String) (D : Nat) (st : RequesterState)
    (e : RequesterEvent) (he : matchesId rid e = false)
    (h : (pendingFor st rid = [(rid, D)] ∧ st.now < D)
       ∨ (pendingFor st rid = [] ∧
           (rid, CallOutcome.timedOut) ∈ st.completed)) :
    (pendingFor (requesterStep st e) rid = [(rid, D)]
        ∧ (requesterStep st e).now < D)
    ∨ (pendingFor (requesterStep st e) rid = []
        ∧ (rid, CallOutcome.timedOut) ∈ (requesterStep st e).completed) := by
  cases e with
  | recv resp =>
      simp only [matchesId] at he
      unfold requesterStep
      dsimp only
      cases hr : resp.requestId with
      | none => simpa [hr] using h
      | some rid' =>
          rw [hr] at he
          have hne : rid' ≠ rid := by
            intro hh
            rw [hh] at he
            simp at he
          dsimp only
          split
          case isTrue hany =>
            rcases h with ⟨hp, hlt⟩ | ⟨hp, hm⟩
            · left
              refine ⟨?_, hlt⟩
              unfold pendingFor at hp ⊢
              dsimp only
              rw [pendingFor_filter_ne _ _ _ hne, hp]
            · right
              refine ⟨?_, List.mem_cons_of_mem _ hm⟩
              unfold pendingFor at hp ⊢
              dsimp only
              rw [pendingFor_filter_ne _ _ _ hne, hp]
          case isFalse => exact h
  | tick =>
      unfold requesterStep
      dsimp only
      rcases h with ⟨hp, hlt⟩ | ⟨hp, hm⟩
      · by_cases hd : st.now + 1 < D
        · left
          refine ⟨?_, hd⟩
          unfold pendingFor at hp ⊢
          dsimp only
          rw [filter_swap, hp, List.filter_cons]
          simp [hd]
        · right
          constructor
          · unfold pendingFor at hp ⊢
            dsimp only
            rw [filter_swap, hp, List.filter_cons]
            simp [hd]
          · have hmem : (rid, D) ∈ st.pending := by
              have : (rid, D) ∈ st.pending.filter (fun p => p.1 == rid) := by
                unfold pendingFor at hp
                rw [hp]
                exact List.mem_singleton_self _
              exact List.mem_of_mem_filter this
            have hDle : D ≤ st.now + 1 := by omega
            refine List.mem_append_left _ ?_
            refine List.mem_map.mpr ⟨(rid, D), ?_, rfl⟩
            exact List.mem_filter.mpr ⟨hmem, by simpa using hDle⟩
      · right
        constructor
        · unfold pendingFor at hp ⊢
          dsimp only
          rw [filter_swap, hp]
          rfl
        · exact List.mem_append_right _ hm

/-- A whole run of matching-response-free events preserves the
pending-or-timed-out invariant. -/
theorem requester_inv_run (rid : String) (D : Nat) :
    ∀ (events : List RequesterEvent),
      (∀ e ∈ events, matchesId rid e = false) →
      ∀ st : RequesterState,
      ((pendingFor st rid = [(rid, D)] ∧ st.now < D)
        ∨ (pendingFor st rid = [] ∧
            (rid, CallOutcome.timedOut) ∈ st.completed)) →
      ((pendingFor (requesterRun st events) rid = [(rid, D)]
          ∧ (requesterRun st events).now < D)
        ∨ (pendingFor (requesterRun st events) rid = []
          ∧ (rid, CallOutcome.timedOut)
              ∈ (requesterRun st events).completed)) := by
  intro events
  induction events with
  | nil => exact fun _ st h => h
  | cons e es ih =>
      intro hnr st h
      have he := hnr e (List.mem_cons_self _ _)
      have hes : ∀ x ∈ es, matchesId rid x = false :=
        fun x hx => hnr x (List.mem_cons_of_mem _ hx)
      exact ih hes (requesterStep st e) (requester_inv_step rid D st e he h)

/-- Claim C8 (Worker Requester, modelled from the spec, whose source is
not under src/): after issuing a request under a fresh correlation id with
a positive configured timeout, if no matching response ever arrives during
a run and the run's clock reaches the deadline, then the pending
correlation entry has been removed and the call has completed with a
timeout failure — the call does not hang indefinitely. -/
theorem claim_C8 (st : RequesterState) (rid : String) (T : Nat)
    (events : List RequesterEvent)
    (hfresh : pendingFor st rid = [])
    (hT : 0 < T)
    (hnr : ∀ e ∈ events, matchesId rid e = false)
    (hdone : st.now + T ≤ (requesterRun (sendRequest st rid T) events).now) :
    pendingFor (requesterRun (sendRequest st rid T) events) rid = []
    ∧ (rid, CallOutcome.timedOut)
        ∈ (requesterRun (sendRequest st rid T) events).completed := by
  have h0 : pendingFor (sendRequest st rid T) rid = [(rid, st.now + T)]
      ∧ (sendRequest st rid T).now < st.now + T := by
    constructor
    · unfold pendingFor at hfresh ⊢
      unfold sendRequest
      dsimp only
      rw [List.filter_cons]
      simp [hfresh]
    · show st.now < st.now + T
      omega
  have hinv := requester_inv_run rid (st.now + T) events hnr _ (Or.inl h0)
  rcases hinv with ⟨_, hlt⟩ | ⟨hp, hm⟩
  · omega
  · exact ⟨hp, hm⟩

/-- Witness for C8: one request, three ticks, timeout of two ticks. -/
theorem claim_C8_witness :
    pendingFor (requesterRun (sendRequest initRequester "r1" 2)
      [RequesterEvent.tick, RequesterEvent.tick, RequesterEvent.tick])
      "r1" = []
    ∧ ("r1", CallOutcome.timedOut)
        ∈ (requesterRun (sendRequest initRequester "r1" 2)
            [RequesterEvent.tick, RequesterEvent.tick,
             RequesterEvent.tick]).completed :=
  claim_C8 initRequester "r1" 2
    [RequesterEvent.tick, RequesterEvent.tick, RequesterEvent.tick]
    rfl (by decide) (by intro e he; fin_cases he <;> rfl) (by decide)

end OperatonBridge
